import Mathlib

/-!
Verification of the `ZetAuthManager` authentication token lifecycle manager
(`src/auth/types.ts` of the zet-api-client repository).

The TypeScript class is shallowly embedded as pure Lean functions:
  * the mutable fields `tokens` / `refreshPromise` become an explicit
    `ManagerState` threaded through every operation;
  * `Date.now()` becomes an explicit `now : Int` parameter (milliseconds);
    a single operation reads the clock once in this model, which matches the
    spec's single-instant statements;
  * every outbound axios call becomes an `Option HttpResponse` parameter
    (`none` models a transport failure with no response, mirroring
    `.catch((err) => err.response)` yielding `undefined`), plus a count of
    issued network calls in each operation's result;
  * the external zod e-mail validator is a function parameter
    `isEmail : String → Bool`, and the external base64+JSON decoding of a JWT
    payload segment is a parameter `d : DecodeFn` (`none` = the decode threw,
    `some none` = no `exp` claim, `some (some e)` = numeric claim `e`);
  * JavaScript truthiness of optional strings (`undefined` and `""` are
    falsy) is modeled by `isTruthy`;
  * a response body is abstracted by the two projections the code uses:
    `bodyTokens` is `some (accessToken, refreshToken)` exactly when
    `AuthTokensSchema.safeParse` succeeds, and `bodyMessage` is the optional
    `data.message` string read by `register`.
-/

namespace ZetApi

/-- Decoder for a JWT payload segment, standing for
`JSON.parse(Buffer.from(seg, 'base64').toString('utf8')).exp`:
`none` = decoding threw, `some none` = no `exp` field,
`some (some e)` = numeric `exp` claim `e` (seconds since epoch). -/
abbrev DecodeFn := String → Option (Option Int)

/-- Mirrors `tokenExpiryBufferMs = 120000` (2 minutes). -/
def tokenExpiryBufferMs : Int := 120000

/-- Mirrors `defaultTokenExpiryMs = 900000` (15 minutes). -/
def defaultTokenExpiryMs : Int := 900000

/-- The private `tokens` field: `{ access, refresh, expiresAt }`. -/
structure Tokens where
  access : String
  refresh : String
  expiresAt : Int
deriving DecidableEq

/-- The manager's mutable state: `tokens` (the session, `null` = `none`) and
whether `refreshPromise` is non-null. -/
structure ManagerState where
  tokens : Option Tokens
  refreshInFlight : Bool
deriving DecidableEq

/-- The state of a freshly constructed `ZetAuthManager`. -/
def initialState : ManagerState := ⟨none, false⟩

/-- Mirrors `clearTokens()`: `this.tokens = null; this.refreshPromise = null`. -/
def clearTokens (_st : ManagerState) : ManagerState := ⟨none, false⟩

/-- The distinct `throw new Error(...)` sites of the manager, by message. -/
inductive AuthError where
  /-- A zod `.parse` call threw (credential shape or field validation). -/
  | validationError
  /-- Message `Not authenticated. Please login first.` -/
  | notAuthenticated
  /-- Message `Token expired. Please login again.` -/
  | tokenExpired
  /-- Message `Username and password are required for login.` -/
  | usernamePasswordRequired
  /-- Message `Login failed: <statusText or Unknown error>`. -/
  | loginFailed (msg : String)
  /-- Message `Failed to parse login response: ...`. -/
  | loginParseFailed
  /-- Message `No refresh token available.` -/
  | noRefreshToken
  /-- Message `Token refresh failed: <statusText or Unknown error>. Please login again.` -/
  | tokenRefreshFailed (msg : String)
  /-- Message `Failed to parse refresh response: ...`. -/
  | refreshParseFailed
  /-- Message `Passwords do not match.` -/
  | passwordsDoNotMatch
  /-- Message `Registration failed: <msg>`. -/
  | registrationFailed (msg : String)
deriving DecidableEq

/-- An HTTP response as consumed by the manager: `status`, `statusText`, the
body viewed through `AuthTokensSchema.safeParse` (`bodyTokens`), and the
optional `data.message` field read by `register`. -/
structure HttpResponse where
  status : Int
  statusText : String
  bodyTokens : Option (String × String)
  bodyMessage : Option String
deriving DecidableEq

/-- JavaScript truthiness of an optional string: `undefined` and `""` are falsy. -/
def isTruthy : Option String → Bool
  | some s => s != ""
  | none => false

/-- Mirrors `response?.statusText || 'Unknown error'`. -/
def statusTextOr (resp : Option HttpResponse) : String :=
  match resp with
  | none => "Unknown error"
  | some r => if r.statusText = "" then "Unknown error" else r.statusText

/-- The `LoginCredentialsSchema` input type: every field optional. -/
structure LoginCredentials where
  username : Option String
  password : Option String
  revokeOtherTokens : Option Bool
  fcmToken : Option String
  refreshToken : Option String
  accessToken : Option String
deriving DecidableEq

/-- The `.refine` predicate of `LoginCredentialsSchema`:
`(accessToken && refreshToken) || refreshToken || (username && password)`. -/
def loginShapeOk (c : LoginCredentials) : Bool :=
  (isTruthy c.accessToken && isTruthy c.refreshToken) || isTruthy c.refreshToken ||
    (isTruthy c.username && isTruthy c.password)

/-- The `z.string().email().optional()` check on `username`: when the field is
present, the external e-mail validator must accept it. -/
def usernameEmailOk (isEmail : String → Bool) (c : LoginCredentials) : Bool :=
  match c.username with
  | some u => isEmail u
  | none => true

/-- Whether `LoginCredentialsSchema.parse(credentials)` succeeds. -/
def parseLoginCredentials (isEmail : String → Bool) (c : LoginCredentials) : Bool :=
  usernameEmailOk isEmail c && loginShapeOk c

/-- Helper for `jsSplitDot`: accumulates the current segment (reversed). -/
def splitDotAux : List Char → List Char → List String
  | [], acc => [String.mk acc.reverse]
  | ch :: cs, acc =>
    if ch = '.' then String.mk acc.reverse :: splitDotAux cs []
    else splitDotAux cs (ch :: acc)

/-- Model of the JavaScript `accessToken.split('.')` (split on every
occurrence of `.`, keeping empty segments, as `String.prototype.split` does). -/
def jsSplitDot (s : String) : List String := splitDotAux s.data []

/-- The JWT expiry-claim extraction shared by `tryReuseAccessToken` (lines
150-156) and `storeTokens` (lines 269-272): split the token on `.`, require
exactly 3 parts and a truthy middle part, decode it, and require a truthy
(non-zero) `exp` claim. Returns the claim in seconds. -/
def jwtExpClaim (d : DecodeFn) (accessToken : String) : Option Int :=
  if (jsSplitDot accessToken).length = 3 then
    match (jsSplitDot accessToken).get? 1 with
    | some p1 =>
      if p1 = "" then none
      else
        match d p1 with
        | some (some e) => if e = 0 then none else some e
        | some none => none
        | none => none
    | none => none
  else none

/-- The expiry `storeTokens` derives when no usable override is given:
`payload.exp ? payload.exp * 1000 : Date.now() + defaultTokenExpiryMs`, with
every failure mode (wrong part count, empty segment, decode throw, missing or
zero claim) falling back to `now + defaultTokenExpiryMs`. -/
def deriveExpiry (d : DecodeFn) (now : Int) (accessToken : String) : Int :=
  match jwtExpClaim d accessToken with
  | some e => e * 1000
  | none => now + defaultTokenExpiryMs

/-- Mirrors `storeTokens(tokens, expiresAt?)` (lines 266-284). A falsy
(absent or zero) override triggers the derivation; the final
`expiresAt || Date.now() + defaultTokenExpiryMs` guard is absorbed because a
successful derivation is a non-zero claim times 1000. -/
def storeTokens (d : DecodeFn) (now : Int) (access refresh : String)
    (override : Option Int) : Tokens :=
  let ea : Int :=
    match override with
    | some e => if e = 0 then deriveExpiry d now access else e
    | none => deriveExpiry d now access
  ⟨access, refresh, ea⟩

/-- The `AuthTokensLogin` result of a successful `login()`. -/
structure AuthTokensLogin where
  accessToken : String
  refreshToken : String
  expiresIn : Int
  viaTokenRefresh : Bool
  viaAccessToken : Bool
deriving DecidableEq

/-- Decidable equality for `Except`, needed to evaluate concrete outcomes. -/
def exceptDecEq {e a : Type} [DecidableEq e] [DecidableEq a] :
    DecidableEq (Except e a) := fun x y =>
  match x, y with
  | .ok v, .ok w => if h : v = w then .isTrue (by rw [h]) else .isFalse (by simp [h])
  | .error v, .error w => if h : v = w then .isTrue (by rw [h]) else .isFalse (by simp [h])
  | .ok _, .error _ => .isFalse (by simp)
  | .error _, .ok _ => .isFalse (by simp)

instance {e a : Type} [DecidableEq e] [DecidableEq a] : DecidableEq (Except e a) :=
  exceptDecEq

/-- Result of `login()` / `performPasswordLogin`: the returned value or thrown
error, the manager state afterwards, and how many network calls were issued. -/
structure LoginOutcome where
  result : Except AuthError AuthTokensLogin
  state : ManagerState
  networkCalls : Nat
deriving DecidableEq

/-- Mirrors `tryReuseAccessToken(accessToken, refreshToken)` (lines 148-175):
decode the expiry claim; if it lies more than the buffer beyond `now`, store
the pair (with the decoded expiry as override) and report it; on any decode
failure or a stale claim, yield `none`. Issues no network call. -/
def tryReuseAccessToken (d : DecodeFn) (now : Int) (st : ManagerState)
    (accessToken refreshToken : String) : Option (AuthTokensLogin × ManagerState) :=
  match jwtExpClaim d accessToken with
  | none => none
  | some e =>
    let expiresAt := e * 1000
    if expiresAt > now + tokenExpiryBufferMs then
      let tks := storeTokens d now accessToken refreshToken (some expiresAt)
      some (⟨tks.access, tks.refresh, max 0 (tks.expiresAt - now), false, true⟩,
            { st with tokens := some tks })
    else none

/-- Mirrors `tryRefreshToken(refreshToken)` (lines 177-199): one call to the
refresh endpoint; on no response, non-200 status, or a body failing
`AuthTokensSchema`, yield `none` (fall through); on success, store the pair
(expiry derived from the new access token) and report it. -/
def tryRefreshToken (d : DecodeFn) (now : Int) (st : ManagerState)
    (resp : Option HttpResponse) : Option (AuthTokensLogin × ManagerState) :=
  match resp with
  | none => none
  | some r =>
    if r.status ≠ 200 then none
    else
      match r.bodyTokens with
      | none => none
      | some (a2, r2) =>
        let tks := storeTokens d now a2 r2 none
        some (⟨tks.access, tks.refresh, max 0 (tks.expiresAt - now), true, false⟩,
              { st with tokens := some tks })

/-- Mirrors `performPasswordLogin(validated)` (lines 201-226): require truthy
username and password, call the login endpoint, fail outright on a missing or
non-200 response or a shape-mismatched body, else store and report the pair. -/
def performPasswordLogin (d : DecodeFn) (now : Int) (st : ManagerState)
    (c : LoginCredentials) (resp : Option HttpResponse) : LoginOutcome :=
  if isTruthy c.username && isTruthy c.password then
    match resp with
    | none => ⟨.error (.loginFailed "Unknown error"), st, 1⟩
    | some r =>
      if r.status ≠ 200 then ⟨.error (.loginFailed (statusTextOr (some r))), st, 1⟩
      else
        match r.bodyTokens with
        | none => ⟨.error .loginParseFailed, st, 1⟩
        | some (a2, r2) =>
          let tks := storeTokens d now a2 r2 none
          ⟨.ok ⟨tks.access, tks.refresh, max 0 (tks.expiresAt - now), false, false⟩,
           { st with tokens := some tks }, 1⟩
  else ⟨.error .usernamePasswordRequired, st, 0⟩

/-- The tail of `login()` from line 116 on: the refresh-token-exchange
strategy when a truthy refresh token is present (always one network call),
falling through to password login on failure. -/
def loginAfterReuse (d : DecodeFn) (now : Int) (st : ManagerState)
    (c : LoginCredentials) (rResp lResp : Option HttpResponse) : LoginOutcome :=
  if isTruthy c.refreshToken then
    match tryRefreshToken d now st rResp with
    | some (res, st2) => ⟨.ok res, st2, 1⟩
    | none =>
      let p := performPasswordLogin d now st c lResp
      ⟨p.result, p.state, 1 + p.networkCalls⟩
  else performPasswordLogin d now st c lResp

/-- Mirrors `login(credentials)` (lines 108-122): validate the credential
shape first (a zod throw means no strategy runs and no network call), then try
access-token reuse, refresh-token exchange, and password login in that order.
`rResp` / `lResp` are the responses the refresh and login endpoints would give
if called. -/
def login (isEmail : String → Bool) (d : DecodeFn) (now : Int) (st : ManagerState)
    (c : LoginCredentials) (rResp lResp : Option HttpResponse) : LoginOutcome :=
  if parseLoginCredentials isEmail c then
    if isTruthy c.accessToken && isTruthy c.refreshToken then
      match tryReuseAccessToken d now st (c.accessToken.getD "") (c.refreshToken.getD "") with
      | some (res, st2) => ⟨.ok res, st2, 0⟩
      | none => loginAfterReuse d now st c rResp lResp
    else loginAfterReuse d now st c rResp lResp
  else ⟨.error .validationError, st, 0⟩

/-- Mirrors `isAuthenticated()` (lines 94-96):
`this.tokens !== null && Date.now() < this.tokens.expiresAt - tokenExpiryBufferMs`. -/
def isAuthenticated (st : ManagerState) (now : Int) : Bool :=
  match st.tokens with
  | some tk => now < tk.expiresAt - tokenExpiryBufferMs
  | none => false

/-- Result of a coordinated refresh: the thrown error or unit, the state
afterwards, and the number of network calls issued. -/
structure RefreshOutcome where
  result : Except AuthError Unit
  state : ManagerState
  networkCalls : Nat
deriving DecidableEq

/-- Mirrors `performTokenRefresh()` (lines 239-264): a falsy stored refresh
token throws before the `try` block (state untouched, no call); otherwise one
call to the refresh endpoint; on failure or a shape-mismatched body,
`clearTokens()` and throw; on success, store the new pair. -/
def performTokenRefresh (d : DecodeFn) (now : Int) (st : ManagerState)
    (resp : Option HttpResponse) : RefreshOutcome :=
  match st.tokens with
  | none => ⟨.error .noRefreshToken, st, 0⟩
  | some tk =>
    if tk.refresh = "" then ⟨.error .noRefreshToken, st, 0⟩
    else
      match resp with
      | none => ⟨.error (.tokenRefreshFailed "Unknown error"), clearTokens st, 1⟩
      | some r =>
        if r.status ≠ 200 then
          ⟨.error (.tokenRefreshFailed (statusTextOr (some r))), clearTokens st, 1⟩
        else
          match r.bodyTokens with
          | none => ⟨.error .refreshParseFailed, clearTokens st, 1⟩
          | some (a2, r2) =>
            ⟨.ok (), { st with tokens := some (storeTokens d now a2 r2 none) }, 1⟩

/-- Mirrors `ensureTokenRefresh()` (lines 228-237) for a single sequential
caller: install the in-flight handle, run `performTokenRefresh`, and clear the
handle in the `finally` block whatever the outcome. (The shared-handle path
taken by concurrent callers is modeled by `episode` below.) -/
def ensureTokenRefresh (d : DecodeFn) (now : Int) (st : ManagerState)
    (resp : Option HttpResponse) : RefreshOutcome :=
  let pr := performTokenRefresh d now { st with refreshInFlight := true } resp
  { pr with state := { pr.state with refreshInFlight := false } }

/-- Result of `getAccessToken()`: the returned token or thrown error, the
state afterwards, the network calls issued, and whether the refresh
coordinator (`ensureTokenRefresh`) was invoked. -/
structure AccessOutcome where
  result : Except AuthError String
  state : ManagerState
  networkCalls : Nat
  coordinatorInvoked : Bool
deriving DecidableEq

/-- Mirrors `getAccessToken()` (lines 98-106): throw if no session; return the
stored token if the session is valid; otherwise await the coordinated refresh
(propagating its failure), then re-check and throw `tokenExpired` if the
session is still missing or invalid. -/
def getAccessToken (d : DecodeFn) (now : Int) (st : ManagerState)
    (resp : Option HttpResponse) : AccessOutcome :=
  match st.tokens with
  | none => ⟨.error .notAuthenticated, st, 0, false⟩
  | some tk =>
    if now < tk.expiresAt - tokenExpiryBufferMs then ⟨.ok tk.access, st, 0, false⟩
    else
      let er := ensureTokenRefresh d now st resp
      match er.result with
      | .error e => ⟨.error e, er.state, er.networkCalls, true⟩
      | .ok _ =>
        match er.state.tokens with
        | none => ⟨.error .tokenExpired, er.state, er.networkCalls, true⟩
        | some tk2 =>
          if now < tk2.expiresAt - tokenExpiryBufferMs then
            ⟨.ok tk2.access, er.state, er.networkCalls, true⟩
          else ⟨.error .tokenExpired, er.state, er.networkCalls, true⟩

/-- Mirrors `logout()` (lines 135-146): when a session with a truthy refresh
token exists, send a best-effort logout notification whose outcome (`resp`,
including a transport failure) is swallowed; always `clearTokens()`. Returns
the final state and the number of network calls issued. -/
def logout (st : ManagerState) (_resp : Option HttpResponse) : ManagerState × Nat :=
  let calls : Nat :=
    match st.tokens with
    | some tk => if tk.refresh = "" then 0 else 1
    | none => 0
  (clearTokens st, calls)

/-- The `RegisterCredentialsSchema` input type. -/
structure RegisterCredentials where
  email : String
  password : String
  confirmPassword : String
deriving DecidableEq

/-- Mirrors `response?.data?.message || response?.statusText || 'Unknown error'`
for a present response. -/
def registerMessage (r : HttpResponse) : String :=
  match r.bodyMessage with
  | some m => if m = "" then (if r.statusText = "" then "Unknown error" else r.statusText) else m
  | none => if r.statusText = "" then "Unknown error" else r.statusText

/-- Result of `register()`: the outcome and the network calls issued. -/
structure RegisterOutcome where
  result : Except AuthError Unit
  networkCalls : Nat
deriving DecidableEq

/-- Mirrors `register(credentials)` (lines 124-133): zod validation first
(e-mail format), then the local password-match check, then one call to the
account endpoint; a missing or non-200 response fails with the extracted
message. -/
def register (isEmail : String → Bool) (c : RegisterCredentials)
    (resp : Option HttpResponse) : RegisterOutcome :=
  if isEmail c.email then
    if c.password ≠ c.confirmPassword then ⟨.error .passwordsDoNotMatch, 0⟩
    else
      match resp with
      | none => ⟨.error (.registrationFailed "Unknown error"), 1⟩
      | some r =>
        if r.status ≠ 200 then ⟨.error (.registrationFailed (registerMessage r)), 1⟩
        else ⟨.ok (), 1⟩
  else ⟨.error .validationError, 0⟩

/-!
Concurrent refresh episode.

The runtime is a single-threaded event loop: each of the `n` concurrent
`getAccessToken()` calls runs synchronously from its invocation to its first
suspension point, and the network response is delivered only after all those
initial segments have run. An initial segment of a caller that finds the
session expired reaches `ensureTokenRefresh`: the first such caller installs
`refreshPromise` and runs `performTokenRefresh` up to its `await` (issuing the
network call there unless the stored refresh token is falsy, in which case the
promise is already rejected and no call is issued); every later caller
observes `refreshPromise` set and joins it. The callers carry no private
state, so the only scheduling freedom is their order, and the initial-segment
phase is a fold of `callerInit` over the callers. After delivery,
`performTokenRefresh`'s continuation updates the shared state, the `finally`
in `ensureTokenRefresh` clears the handle, and each caller's continuation
computes its outcome from the shared state alone (`callerResume`).
-/

/-- Shared coordination state during the initial-segment phase. -/
structure EpState where
  inFlight : Bool
  networkCalls : Nat
deriving DecidableEq

/-- One caller's initial segment: join an installed handle, or install it and
issue the refresh network call (unless the stored refresh token is falsy, in
which case `performTokenRefresh` throws before any call). -/
def callerInit (sess : Tokens) (st : EpState) : EpState :=
  if st.inFlight then st
  else ⟨true, st.networkCalls + (if sess.refresh = "" then 0 else 1)⟩

/-- The initial segments of `n` callers, in arrival order. -/
def initPhase (sess : Tokens) : Nat → EpState → EpState
  | 0, st => st
  | n + 1, st => initPhase sess n (callerInit sess st)

/-- One caller's continuation after the shared refresh settles: a rejection
propagates; otherwise re-check the (shared) session as in lines 103-105. -/
def callerResume (now : Int) (finalTokens : Option Tokens)
    (res : Except AuthError Unit) : Except AuthError String :=
  match res with
  | .error e => .error e
  | .ok _ =>
    match finalTokens with
    | none => .error .tokenExpired
    | some tk =>
      if now < tk.expiresAt - tokenExpiryBufferMs then .ok tk.access
      else .error .tokenExpired

/-- Observable result of a concurrent episode. -/
structure EpisodeResult where
  outcomes : List (Except AuthError String)
  networkCalls : Nat
  finalTokens : Option Tokens
  finalInFlight : Bool
  refreshResult : Except AuthError Unit
deriving DecidableEq

/-- The whole episode: `n` concurrent `getAccessToken()` calls against the
expired session `sess`, with the refresh endpoint answering `resp`. The
network-call count comes from the initial-segment fold; the single shared
refresh outcome and final session come from `performTokenRefresh`; the
`finally` of `ensureTokenRefresh` leaves the handle cleared; every caller's
outcome is `callerResume` of the shared state. -/
def episode (d : DecodeFn) (now : Int) (sess : Tokens) (resp : Option HttpResponse)
    (n : Nat) : EpisodeResult :=
  let stInit := initPhase sess n ⟨false, 0⟩
  let pr := performTokenRefresh d now ⟨some sess, true⟩ resp
  { outcomes := List.replicate n (callerResume now pr.state.tokens pr.result)
  , networkCalls := stInit.networkCalls
  , finalTokens := pr.state.tokens
  , finalInFlight := false
  , refreshResult := pr.result }

/-! Helper lemmas (shared; not tied to any single claim). -/

/-- A successfully extracted JWT expiry claim is non-zero (JS truthiness of
`payload.exp`). -/
theorem jwtExpClaim_ne_zero (d : DecodeFn) (a : String) (e : Int)
    (h : jwtExpClaim d a = some e) : e ≠ 0 := by
  unfold jwtExpClaim at h
  split at h
  · split at h
    · split at h
      · simp at h
      · split at h
        · split at h <;> simp_all
        · simp at h
        · simp at h
    · simp at h
  · simp at h

/-- Once a caller has installed the in-flight handle, later initial segments
change nothing. -/
theorem initPhase_inFlight (sess : Tokens) (n : Nat) (s : EpState)
    (h : s.inFlight = true) : initPhase sess n s = s := by
  induction n with
  | zero => rfl
  | succ m ih => simpa [initPhase, callerInit, h] using ih

/-- The initial-segment phase of at least one caller installs the handle and
issues exactly one network call when the stored refresh token is truthy,
and none when it is falsy. -/
theorem initPhase_calls (sess : Tokens) (n : Nat) (h : 1 ≤ n) :
    initPhase sess n ⟨false, 0⟩ =
      ⟨true, if sess.refresh = "" then 0 else 1⟩ := by
  cases n with
  | zero => omega
  | succ m =>
    have h1 : callerInit sess ⟨false, 0⟩ = ⟨true, if sess.refresh = "" then 0 else 1⟩ := by
      simp [callerInit]
    show initPhase sess m (callerInit sess ⟨false, 0⟩) = _
    rw [h1, initPhase_inFlight sess m _ rfl]

/-! Claim theorems. -/

/-- C7: `isAuthenticated()` is a pure function of the session and the current
time (it is literally a Lean function of `ManagerState` and `now`, performing
no I/O): it returns `false` when no session exists, and for an existing
session it returns `true` exactly when `now < expiresAt - 2min`. -/
theorem c7_isAuthenticated_pure (st : ManagerState) (now : Int) :
    (st.tokens = none → isAuthenticated st now = false) ∧
    (∀ tk, st.tokens = some tk →
      (isAuthenticated st now = true ↔ now < tk.expiresAt - tokenExpiryBufferMs)) := by
  constructor
  · intro h
    simp [isAuthenticated, h]
  · intro tk h
    simp [isAuthenticated, h]

/-- C7 witness: before any login `isAuthenticated` is `false`; with a session
expiring at 1000000 and `now = 0` it is `true`. -/
theorem c7_witness :
    isAuthenticated initialState 0 = false ∧
    isAuthenticated ⟨some ⟨"at", "rt", 1000000⟩, false⟩ 0 = true :=
  ⟨(c7_isAuthenticated_pure initialState 0).1 rfl,
   ((c7_isAuthenticated_pure ⟨some ⟨"at", "rt", 1000000⟩, false⟩ 0).2
      ⟨"at", "rt", 1000000⟩ rfl).mpr (by decide)⟩

/-- C2: a credential value matching none of the three accepted shapes
(`{username,password}`, `{refreshToken}`, `{accessToken,refreshToken}`, with
JS truthiness of the fields) makes `login()` fail with a validation error,
with zero network calls and the state untouched (no strategy executes). -/
theorem c2_invalid_shape_rejected (isEmail : String → Bool) (d : DecodeFn)
    (now : Int) (st : ManagerState) (c : LoginCredentials)
    (rResp lResp : Option HttpResponse)
    (h1 : ¬ (isTruthy c.username = true ∧ isTruthy c.password = true))
    (h2 : isTruthy c.refreshToken = false)
    (_h3 : ¬ (isTruthy c.accessToken = true ∧ isTruthy c.refreshToken = true)) :
    login isEmail d now st c rResp lResp = ⟨.error .validationError, st, 0⟩ := by
  have hshape : loginShapeOk c = false := by
    cases hu : isTruthy c.username <;> cases hp : isTruthy c.password <;>
      simp_all [loginShapeOk]
  simp [login, parseLoginCredentials, hshape]

/-- C2 witness: the all-absent credential matches no shape and is rejected
with zero network calls. -/
theorem c2_witness :
    login (fun _ => true) (fun _ => none) 0 initialState
      ⟨none, none, none, none, none, none⟩ none none =
      ⟨.error .validationError, initialState, 0⟩ :=
  c2_invalid_shape_rejected (fun _ => true) (fun _ => none) 0 initialState
    ⟨none, none, none, none, none, none⟩ none none
    (by decide) (by decide) (by decide)

/-- C10: a credential whose `username` field is present but rejected by the
e-mail validator makes `login()` fail with a validation error before any
strategy executes and before any network call, even when a password (or any
other field) is supplied. -/
theorem c10_username_must_be_email (isEmail : String → Bool) (d : DecodeFn)
    (now : Int) (st : ManagerState) (c : LoginCredentials)
    (rResp lResp : Option HttpResponse) (u : String)
    (hu : c.username = some u) (hbad : isEmail u = false) :
    login isEmail d now st c rResp lResp = ⟨.error .validationError, st, 0⟩ := by
  have : usernameEmailOk isEmail c = false := by
    simp [usernameEmailOk, hu, hbad]
  simp [login, parseLoginCredentials, this]

/-- C10 witness: a non-e-mail username with a password is rejected with zero
network calls. -/
theorem c10_witness :
    login (fun s => s = "a@b.com") (fun _ => none) 0 initialState
      ⟨some "bob", some "pw", none, none, none, none⟩ none none =
      ⟨.error .validationError, initialState, 0⟩ :=
  c10_username_must_be_email (fun s => s = "a@b.com") (fun _ => none) 0 initialState
    ⟨some "bob", some "pw", none, none, none, none⟩ none none "bob" rfl (by decide)

/-- C8: `logout()` always clears the session and discards any pending
refresh-coordination handle, whatever the state and whatever the best-effort
network notification returns (including a transport failure); afterwards
`isAuthenticated()` is `false` at every time. -/
theorem c8_logout_clears (st : ManagerState) (resp : Option HttpResponse)
    (now : Int) :
    (logout st resp).1.tokens = none ∧
    (logout st resp).1.refreshInFlight = false ∧
    isAuthenticated (logout st resp).1 now = false := by
  simp [logout, clearTokens, isAuthenticated]

/-- C9: `register()` with mismatched passwords fails locally with zero network
calls (and with the dedicated mismatch error when validation passes); with
matching passwords it issues the one delegated call, and a missing or non-200
response fails with the message extracted from the response body when present,
otherwise the transport status text. -/
theorem c9_register_validation (isEmail : String → Bool)
    (c : RegisterCredentials) (resp : Option HttpResponse) :
    (c.password ≠ c.confirmPassword →
      (register isEmail c resp).networkCalls = 0 ∧
      ∃ e, (register isEmail c resp).result = .error e) ∧
    (isEmail c.email = true → c.password ≠ c.confirmPassword →
      register isEmail c resp = ⟨.error .passwordsDoNotMatch, 0⟩) ∧
    (isEmail c.email = true → c.password = c.confirmPassword →
      (register isEmail c resp).networkCalls = 1 ∧
      ∀ r, resp = some r → r.status ≠ 200 →
        (register isEmail c resp).result =
          .error (.registrationFailed (registerMessage r)) ∧
        (∀ m, r.bodyMessage = some m → m ≠ "" → registerMessage r = m) ∧
        ((r.bodyMessage = none ∨ r.bodyMessage = some "") → r.statusText ≠ "" →
          registerMessage r = r.statusText)) := by
  refine ⟨?_, ?_, ?_⟩
  · intro hne
    by_cases he : isEmail c.email
    · exact ⟨by simp [register, he, hne], .passwordsDoNotMatch, by simp [register, he, hne]⟩
    · exact ⟨by simp [register, he], .validationError, by simp [register, he]⟩
  · intro he hne
    simp [register, he, hne]
  · intro he heq
    constructor
    · rcases resp with _ | r
      · simp [register, he, heq]
      · by_cases hs : r.status = 200 <;> simp [register, he, heq, hs]
    · intro r hr hst
      subst hr
      refine ⟨by simp [register, he, heq, hst], ?_, ?_⟩
      · intro m hm hmne
        simp [registerMessage, hm, hmne]
      · intro hm hstx
        rcases hm with hm | hm <;> simp [registerMessage, hm, hstx]

/-- C9 witness: mismatched passwords fail locally with zero calls; matching
passwords with a 400 response carrying a body message fail with that
message. -/
theorem c9_witness :
    register (fun s => s = "a@b.com") ⟨"a@b.com", "x", "y"⟩ none =
      ⟨.error .passwordsDoNotMatch, 0⟩ ∧
    (register (fun s => s = "a@b.com") ⟨"a@b.com", "x", "x"⟩
        (some ⟨400, "Bad Request", none, some "email taken"⟩)).result =
      .error (.registrationFailed "email taken") := by
  constructor
  · exact (c9_register_validation (fun s => s = "a@b.com") ⟨"a@b.com", "x", "y"⟩ none).2.1
      (by decide) (by decide)
  · exact (((c9_register_validation (fun s => s = "a@b.com") ⟨"a@b.com", "x", "x"⟩
      (some ⟨400, "Bad Request", none, some "email taken"⟩)).2.2 (by decide) rfl).2
      ⟨400, "Bad Request", none, some "email taken"⟩ rfl (by decide)).1

/-- C3: with both tokens supplied (and validation passing), if the access
token's decoded expiry claim lies more than the buffer beyond `now`, `login()`
adopts the pair as the session with zero network calls, reports
`viaAccessToken = true`, and `expiresIn` equals the decoded expiry minus
`now`; if the claim is missing, unparsable, or already within the buffer, the
reuse strategy yields no result and `login()` falls through to the next
strategy rather than failing. -/
theorem c3_access_token_reuse (isEmail : String → Bool) (d : DecodeFn)
    (now : Int) (st : ManagerState) (c : LoginCredentials)
    (rResp lResp : Option HttpResponse) (a r : String)
    (ha : c.accessToken = some a) (hr : c.refreshToken = some r)
    (ha2 : a ≠ "") (hr2 : r ≠ "")
    (hv : parseLoginCredentials isEmail c = true) :
    (∀ e, jwtExpClaim d a = some e → e * 1000 > now + tokenExpiryBufferMs →
      login isEmail d now st c rResp lResp =
        ⟨.ok ⟨a, r, e * 1000 - now, false, true⟩,
         { st with tokens := some ⟨a, r, e * 1000⟩ }, 0⟩) ∧
    ((jwtExpClaim d a = none ∨
        ∃ e, jwtExpClaim d a = some e ∧ e * 1000 ≤ now + tokenExpiryBufferMs) →
      tryReuseAccessToken d now st a r = none ∧
      login isEmail d now st c rResp lResp = loginAfterReuse d now st c rResp lResp) := by
  have htr : isTruthy c.accessToken = true := by simp [isTruthy, ha, ha2]
  have htr2 : isTruthy c.refreshToken = true := by simp [isTruthy, hr, hr2]
  constructor
  · intro e he hgt
    have hez : e ≠ 0 := jwtExpClaim_ne_zero d a e he
    have hmul : e * 1000 ≠ 0 := mul_ne_zero hez (by norm_num)
    have h0 : (0 : Int) ≤ e * 1000 - now := by
      simp only [tokenExpiryBufferMs] at hgt
      omega
    have hmax : max 0 (e * 1000 - now) = e * 1000 - now := max_eq_right h0
    have hreuse : tryReuseAccessToken d now st a r =
        some (⟨a, r, e * 1000 - now, false, true⟩,
              { st with tokens := some ⟨a, r, e * 1000⟩ }) := by
      simp [tryReuseAccessToken, he, hgt, storeTokens, hmul, hmax]
    simp [login, hv, ha, hr, isTruthy, ha2, hr2, hreuse]
  · intro hfall
    have hnone : tryReuseAccessToken d now st a r = none := by
      rcases hfall with h | ⟨e, he, hle⟩
      · simp [tryReuseAccessToken, h]
      · simp [tryReuseAccessToken, he, not_lt.mpr hle]
    refine ⟨hnone, ?_⟩
    simp [login, hv, ha, hr, isTruthy, ha2, hr2, hnone]

/-- C3 witness: a token `h.p.s` whose payload decodes to `exp = 1000` seconds,
at `now = 0`, is adopted with zero network calls, `viaAccessToken = true` and
`expiresIn = 1000000`; a token whose payload does not decode falls through to
the refresh strategy. -/
theorem c3_witness :
    login (fun _ => true) (fun s => if s = "p" then some (some 1000) else none)
      0 initialState ⟨none, none, none, none, some "rt", some "h.p.s"⟩ none none =
      ⟨.ok ⟨"h.p.s", "rt", 1000000, false, true⟩,
       ⟨some ⟨"h.p.s", "rt", 1000000⟩, false⟩, 0⟩ ∧
    (tryReuseAccessToken (fun _ => none) 0 initialState "x.y.z" "rt" = none ∧
     login (fun _ => true) (fun _ => none) 0 initialState
       ⟨none, none, none, none, some "rt", some "x.y.z"⟩ none none =
       loginAfterReuse (fun _ => none) 0 initialState
         ⟨none, none, none, none, some "rt", some "x.y.z"⟩ none none) := by
  constructor
  · have h := (c3_access_token_reuse (fun _ => true)
      (fun s => if s = "p" then some (some 1000) else none) 0 initialState
      ⟨none, none, none, none, some "rt", some "h.p.s"⟩ none none "h.p.s" "rt"
      rfl rfl (by decide) (by decide) (by decide)).1 1000 (by decide) (by decide)
    simpa using h
  · exact (c3_access_token_reuse (fun _ => true) (fun _ => none) 0 initialState
      ⟨none, none, none, none, some "rt", some "x.y.z"⟩ none none "x.y.z" "rt"
      rfl rfl (by decide) (by decide) (by decide)).2 (Or.inl (by decide))

/-- C4: when the refresh-token-exchange strategy fails (no response, non-200,
or shape-mismatched body) it is not raised by itself; with password login not
eligible (no truthy username/password pair), `login()` fails with the explicit
credentials-insufficient error, not the refresh failure, after the single
refresh attempt. -/
theorem c4_refresh_failure_falls_through (isEmail : String → Bool) (d : DecodeFn)
    (now : Int) (st : ManagerState) (c : LoginCredentials)
    (rResp lResp : Option HttpResponse)
    (hv : parseLoginCredentials isEmail c = true)
    (hr : isTruthy c.refreshToken = true)
    (hreuse : isTruthy c.accessToken = true →
      tryReuseAccessToken d now st (c.accessToken.getD "") (c.refreshToken.getD "") = none)
    (hfail : rResp = none ∨ ∃ r, rResp = some r ∧ (r.status ≠ 200 ∨ r.bodyTokens = none))
    (hnp : (isTruthy c.username && isTruthy c.password) = false) :
    login isEmail d now st c rResp lResp =
      ⟨.error .usernamePasswordRequired, st, 1⟩ := by
  have htr : tryRefreshToken d now st rResp = none := by
    rcases hfail with h | ⟨r, hr2, h⟩
    · simp [tryRefreshToken, h]
    · rcases h with h | h
      · simp [tryRefreshToken, hr2, h]
      · by_cases hs : r.status = 200 <;> simp [tryRefreshToken, hr2, h, hs]
  have hpp : performPasswordLogin d now st c lResp =
      ⟨.error .usernamePasswordRequired, st, 0⟩ := by
    simp [performPasswordLogin, hnp]
  by_cases ha : isTruthy c.accessToken = true
  · simp [login, hv, ha, hr, hreuse ha, loginAfterReuse, htr, hpp]
  · have ha2 : isTruthy c.accessToken = false := by
      cases h : isTruthy c.accessToken
      · rfl
      · exact absurd h ha
    simp [login, hv, ha2, hr, loginAfterReuse, htr, hpp]

/-- C4 witness: only an (invalid) refresh token supplied and the refresh
endpoint answering 401 — `login()` fails with the credentials-insufficient
error after one network call. -/
theorem c4_witness :
    login (fun _ => true) (fun _ => none) 0 initialState
      ⟨none, none, none, none, some "rt", none⟩
      (some ⟨401, "Unauthorized", none, none⟩) none =
      ⟨.error .usernamePasswordRequired, initialState, 1⟩ :=
  c4_refresh_failure_falls_through (fun _ => true) (fun _ => none) 0 initialState
    ⟨none, none, none, none, some "rt", none⟩
    (some ⟨401, "Unauthorized", none, none⟩) none
    (by decide) (by decide) (fun h => by simp [isTruthy] at h)
    (Or.inr ⟨⟨401, "Unauthorized", none, none⟩, rfl, Or.inl (by decide)⟩)
    (by decide)

/-- C5 counterexample: with no session at all (a state the claim's
"otherwise" branch covers, since no session is never valid),
`getAccessToken()` does not invoke the refresh coordinator and fails with the
not-authenticated error, not the session-expired error — refuting the claim
that every invalid-session call invokes the coordinator and ends in
SessionExpired. -/
theorem c5_counterexample :
    isAuthenticated initialState 0 = false ∧
    (getAccessToken (fun _ => none) 0 initialState none).coordinatorInvoked = false ∧
    (getAccessToken (fun _ => none) 0 initialState none).result ≠
      Except.error AuthError.tokenExpired := by
  decide

/-- C5 (amended): `getAccessToken()` returns the stored token with no I/O and
no coordinator call when the session is valid; with no session it fails
immediately with the not-authenticated error, no I/O and no coordinator call;
with an existing invalid session it invokes the refresh coordinator, a failed
refresh propagates that failure as-is, and when the refresh does not fail the
validity re-check either returns the new stored token or fails with the
session-expired error. -/
theorem c5_getAccessToken_spec (d : DecodeFn) (now : Int) (st : ManagerState)
    (resp : Option HttpResponse) :
    (isAuthenticated st now = true →
      ∃ tk, st.tokens = some tk ∧
        getAccessToken d now st resp = ⟨.ok tk.access, st, 0, false⟩) ∧
    (st.tokens = none →
      getAccessToken d now st resp = ⟨.error .notAuthenticated, st, 0, false⟩) ∧
    (∀ tk, st.tokens = some tk → isAuthenticated st now = false →
      (getAccessToken d now st resp).coordinatorInvoked = true ∧
      (∀ e, (ensureTokenRefresh d now st resp).result = .error e →
        (getAccessToken d now st resp).result = .error e) ∧
      ((ensureTokenRefresh d now st resp).result = .ok () →
        (isAuthenticated (ensureTokenRefresh d now st resp).state now = false →
          (getAccessToken d now st resp).result = .error .tokenExpired) ∧
        (∀ tk2, (ensureTokenRefresh d now st resp).state.tokens = some tk2 →
          isAuthenticated (ensureTokenRefresh d now st resp).state now = true →
          (getAccessToken d now st resp).result = .ok tk2.access))) := by
  refine ⟨?_, ?_, ?_⟩
  · intro h
    rcases hst : st.tokens with _ | tk
    · simp [isAuthenticated, hst] at h
    · have hlt : now < tk.expiresAt - tokenExpiryBufferMs := by
        simpa [isAuthenticated, hst] using h
      exact ⟨tk, rfl, by simp [getAccessToken, hst, hlt]⟩
  · intro h
    simp [getAccessToken, h]
  · intro tk hst hinv
    have hlt : ¬ now < tk.expiresAt - tokenExpiryBufferMs := by
      simpa [isAuthenticated, hst] using hinv
    cases hres : (ensureTokenRefresh d now st resp).result with
    | error e =>
      refine ⟨by simp [getAccessToken, hst, hlt, hres], ?_, ?_⟩
      · intro e2 he2
        injection he2 with he3
        subst he3
        simp [getAccessToken, hst, hlt, hres]
      · intro hok
        simp at hok
    | ok u =>
      cases u
      refine ⟨?_, ?_, ?_⟩
      · rcases hst2 : (ensureTokenRefresh d now st resp).state.tokens with _ | tk2
        · simp [getAccessToken, hst, hlt, hres, hst2]
        · by_cases hlt2 : now < tk2.expiresAt - tokenExpiryBufferMs <;>
            simp [getAccessToken, hst, hlt, hres, hst2, hlt2]
      · intro e2 he2
        simp at he2
      · intro _
        constructor
        · intro hinv2
          rcases hst2 : (ensureTokenRefresh d now st resp).state.tokens with _ | tk2
          · simp [getAccessToken, hst, hlt, hres, hst2]
          · have hlt2 : ¬ now < tk2.expiresAt - tokenExpiryBufferMs := by
              simpa [isAuthenticated, hst2] using hinv2
            simp [getAccessToken, hst, hlt, hres, hst2, hlt2]
        · intro tk2 hst2 hval2
          have hlt2 : now < tk2.expiresAt - tokenExpiryBufferMs := by
            simpa [isAuthenticated, hst2] using hval2
          simp [getAccessToken, hst, hlt, hres, hst2, hlt2]

/-- C5 witness: a valid session at `now = 0` yields the stored token with no
I/O and no coordinator call. -/
theorem c5_witness :
    getAccessToken (fun _ => none) 0 ⟨some ⟨"at", "rt", 1000000⟩, false⟩ none =
      ⟨.ok "at", ⟨some ⟨"at", "rt", 1000000⟩, false⟩, 0, false⟩ := by
  obtain ⟨tk, htk, heq⟩ :=
    (c5_getAccessToken_spec (fun _ => none) 0
      ⟨some ⟨"at", "rt", 1000000⟩, false⟩ none).1 (by decide)
  have h2 : tk = ⟨"at", "rt", 1000000⟩ := (Option.some.inj htk).symm
  rw [h2] at heq
  exact heq

/-- C1 counterexample: a session whose stored refresh token is the empty
string (falsy in JS, reachable from a 200 login response whose
`refreshToken` is `""`) is expired beyond the buffer, yet two concurrent
`getAccessToken()` calls trigger zero refresh network calls —
`performTokenRefresh` throws before issuing the call — refuting "exactly one
refresh network call". -/
theorem c1_counterexample :
    ((Tokens.mk "a" "" 0).expiresAt - tokenExpiryBufferMs ≤ (1000000 : Int)) ∧
    (episode (fun _ => none) 1000000 ⟨"a", "", 0⟩ none 2).networkCalls ≠ 1 := by
  decide

/-- C1 (amended): for every session expired beyond the buffer whose stored
refresh token is non-empty, `n ≥ 1` concurrent `getAccessToken()` calls
trigger exactly one refresh network call, and all `n` callers observe one
identical outcome: the same access token, or the failure of that single call,
or the session-expired error when the refresh succeeds but the refreshed
token is itself already stale. -/
theorem c1_single_flight_amended (d : DecodeFn) (now : Int) (sess : Tokens)
    (resp : Option HttpResponse) (n : Nat) (hn : 1 ≤ n)
    (_hexp : sess.expiresAt - tokenExpiryBufferMs ≤ now)
    (href : sess.refresh ≠ "") :
    (episode d now sess resp n).networkCalls = 1 ∧
    ((∃ t, (episode d now sess resp n).outcomes = List.replicate n (Except.ok t)) ∨
     (∃ e, (episode d now sess resp n).refreshResult = Except.error e ∧
        (episode d now sess resp n).outcomes = List.replicate n (Except.error e)) ∨
     ((episode d now sess resp n).refreshResult = Except.ok () ∧
        (episode d now sess resp n).outcomes =
          List.replicate n (Except.error AuthError.tokenExpired))) := by
  constructor
  · show (initPhase sess n ⟨false, 0⟩).networkCalls = 1
    rw [initPhase_calls sess n hn]
    simp [href]
  · rcases resp with _ | r
    · right; left
      exact ⟨.tokenRefreshFailed "Unknown error",
        by simp [episode, performTokenRefresh, href],
        by simp [episode, performTokenRefresh, href, callerResume]⟩
    · by_cases hs : r.status = 200
      · rcases hb : r.bodyTokens with _ | ⟨a2, r2⟩
        · right; left
          exact ⟨.refreshParseFailed,
            by simp [episode, performTokenRefresh, href, hs, hb],
            by simp [episode, performTokenRefresh, href, hs, hb, callerResume]⟩
        · by_cases hval : now < (storeTokens d now a2 r2 none).expiresAt - tokenExpiryBufferMs
          · left
            exact ⟨(storeTokens d now a2 r2 none).access,
              by simp [episode, performTokenRefresh, href, hs, hb, callerResume, hval]⟩
          · right; right
            exact ⟨by simp [episode, performTokenRefresh, href, hs, hb],
              by simp [episode, performTokenRefresh, href, hs, hb, callerResume, hval]⟩
      · right; left
        exact ⟨.tokenRefreshFailed (statusTextOr (some r)),
          by simp [episode, performTokenRefresh, href, hs],
          by simp [episode, performTokenRefresh, href, hs, callerResume]⟩

/-- C1 witness: two concurrent callers against an expired session with refresh
token `rt` and a transport failure — one network call, both observing the
identical refresh failure. -/
theorem c1_witness :
    (episode (fun _ => none) 1000000 ⟨"a", "rt", 0⟩ none 2).networkCalls = 1 ∧
    ((∃ t, (episode (fun _ => none) 1000000 ⟨"a", "rt", 0⟩ none 2).outcomes =
        List.replicate 2 (Except.ok t)) ∨
     (∃ e, (episode (fun _ => none) 1000000 ⟨"a", "rt", 0⟩ none 2).refreshResult =
        Except.error e ∧
        (episode (fun _ => none) 1000000 ⟨"a", "rt", 0⟩ none 2).outcomes =
          List.replicate 2 (Except.error e)) ∨
     ((episode (fun _ => none) 1000000 ⟨"a", "rt", 0⟩ none 2).refreshResult =
        Except.ok () ∧
        (episode (fun _ => none) 1000000 ⟨"a", "rt", 0⟩ none 2).outcomes =
          List.replicate 2 (Except.error AuthError.tokenExpired))) :=
  c1_single_flight_amended (fun _ => none) 1000000 ⟨"a", "rt", 0⟩ none 2
    (by decide) (by decide) (by decide)

/-- C6: every coordinated refresh that fails (no response, non-200, or
shape-mismatched body) destroys the session entirely (no session remains and
`isAuthenticated()` is `false`), leaves the in-flight handle cleared, and
delivers the identical failure to every waiter, after exactly one network
call (no retry inside the component). -/
theorem c6_failed_refresh_destroys_session (d : DecodeFn) (now : Int)
    (sess : Tokens) (resp : Option HttpResponse) (n : Nat) (hn : 1 ≤ n)
    (href : sess.refresh ≠ "")
    (hfail : resp = none ∨
      ∃ r, resp = some r ∧ (r.status ≠ 200 ∨ r.bodyTokens = none)) :
    (episode d now sess resp n).finalTokens = none ∧
    (episode d now sess resp n).finalInFlight = false ∧
    isAuthenticated ⟨(episode d now sess resp n).finalTokens, false⟩ now = false ∧
    (episode d now sess resp n).networkCalls = 1 ∧
    ∃ e, (episode d now sess resp n).refreshResult = Except.error e ∧
      (episode d now sess resp n).outcomes = List.replicate n (Except.error e) := by
  have hcalls : (episode d now sess resp n).networkCalls = 1 := by
    show (initPhase sess n ⟨false, 0⟩).networkCalls = 1
    rw [initPhase_calls sess n hn]
    simp [href]
  rcases hfail with h | ⟨r, hr2, h⟩
  · subst h
    exact ⟨by simp [episode, performTokenRefresh, href, clearTokens],
      rfl,
      by simp [isAuthenticated, episode, performTokenRefresh, href, clearTokens],
      hcalls,
      .tokenRefreshFailed "Unknown error",
      by simp [episode, performTokenRefresh, href],
      by simp [episode, performTokenRefresh, href, callerResume]⟩
  · subst hr2
    rcases h with h | h
    · exact ⟨by simp [episode, performTokenRefresh, href, h, clearTokens],
        rfl,
        by simp [isAuthenticated, episode, performTokenRefresh, href, h, clearTokens],
        hcalls,
        .tokenRefreshFailed (statusTextOr (some r)),
        by simp [episode, performTokenRefresh, href, h],
        by simp [episode, performTokenRefresh, href, h, callerResume]⟩
    · by_cases hs : r.status = 200
      · exact ⟨by simp [episode, performTokenRefresh, href, hs, h, clearTokens],
          rfl,
          by simp [isAuthenticated, episode, performTokenRefresh, href, hs, h, clearTokens],
          hcalls,
          .refreshParseFailed,
          by simp [episode, performTokenRefresh, href, hs, h],
          by simp [episode, performTokenRefresh, href, hs, h, callerResume]⟩
      · exact ⟨by simp [episode, performTokenRefresh, href, hs, clearTokens],
          rfl,
          by simp [isAuthenticated, episode, performTokenRefresh, href, hs, clearTokens],
          hcalls,
          .tokenRefreshFailed (statusTextOr (some r)),
          by simp [episode, performTokenRefresh, href, hs],
          by simp [episode, performTokenRefresh, href, hs, callerResume]⟩

/-- C6 witness: a 500 response to the coordinated refresh with two waiters —
session destroyed, handle cleared, one call, both waiters observing the same
failure. -/
theorem c6_witness :
    (episode (fun _ => none) 0 ⟨"a", "rt", 0⟩
        (some ⟨500, "Server Error", none, none⟩) 2).finalTokens = none ∧
    (episode (fun _ => none) 0 ⟨"a", "rt", 0⟩
        (some ⟨500, "Server Error", none, none⟩) 2).finalInFlight = false ∧
    isAuthenticated ⟨(episode (fun _ => none) 0 ⟨"a", "rt", 0⟩
        (some ⟨500, "Server Error", none, none⟩) 2).finalTokens, false⟩ 0 = false ∧
    (episode (fun _ => none) 0 ⟨"a", "rt", 0⟩
        (some ⟨500, "Server Error", none, none⟩) 2).networkCalls = 1 ∧
    ∃ e, (episode (fun _ => none) 0 ⟨"a", "rt", 0⟩
        (some ⟨500, "Server Error", none, none⟩) 2).refreshResult = Except.error e ∧
      (episode (fun _ => none) 0 ⟨"a", "rt", 0⟩
        (some ⟨500, "Server Error", none, none⟩) 2).outcomes =
        List.replicate 2 (Except.error e) :=
  c6_failed_refresh_destroys_session (fun _ => none) 0 ⟨"a", "rt", 0⟩
    (some ⟨500, "Server Error", none, none⟩) 2 (by decide) (by decide)
    (Or.inr ⟨⟨500, "Server Error", none, none⟩, rfl, Or.inl (by decide)⟩)

end ZetApi
